import Mathlib

/-!
Verification development for the denoproxy core: a shallow embedding of
the frame codec, the initiator client (`src/core/client.ts`), the egress
transport (`ProxyTransport`), and the egress protocol engines
(`src/core/protocol/tcp.ts`, `udp.ts`, `dns.ts`, and the HTTP engine),
together with theorems settling the specification claims.

Bytes are modelled as `Nat` (values < 256 on the wire), byte buffers as
`List Nat`, and JS `Map`s keyed by `resourceId` as association lists or
id lists.  Callback invocations (`resolve`, `reject`, stream controller
operations) and socket operations are modelled as an explicit effect
list produced by each state-transition function.
-/

-- Message type octets, from `src/core/protocol.ts` (`enum MessageType`).
namespace MessageType

def TCP_CONNECT : Nat := 0x01

def TCP_CONNECT_ACK : Nat := 0x02

def TCP_DATA : Nat := 0x03

def TCP_CLOSE : Nat := 0x04

def UDP_BIND : Nat := 0x11

def UDP_BIND_ACK : Nat := 0x12

def UDP_DATA : Nat := 0x13

def UDP_CLOSE : Nat := 0x14

def DNS_QUERY : Nat := 0x21

def DNS_RESPONSE : Nat := 0x22

def HTTP_REQUEST : Nat := 0x31

def HTTP_RESPONSE : Nat := 0x32

def HTTP_BODY_CHUNK : Nat := 0x33

def HTTP_BODY_END : Nat := 0x34

def ERROR : Nat := 0xFE

def HEARTBEAT : Nat := 0xFF

end MessageType

/-- `HEADER_SIZE` from `src/core/protocol.ts`: 1 byte type + 4 bytes resourceId. -/
def HEADER_SIZE : Nat := 5

/-- A decoded frame (`ProxyMessage` in `src/core/protocol.ts`):
type octet, 32-bit resource id, payload bytes. -/
structure ProxyMessage where
  type : Nat
  resourceId : Nat
  data : List Nat
  deriving DecidableEq, Repr

/-- `encodeMessage` from `src/core/codec.ts`: 1 byte `type` (JS `setUint8`
truncates mod 256), 4 bytes `resourceId` big-endian (`setUint32` truncates
mod 2^32), then the payload bytes. -/
def encodeMessage (msg : ProxyMessage) : List Nat :=
  (msg.type % 256) ::
  (msg.resourceId % 2 ^ 32 / 0x1000000 % 256) ::
  (msg.resourceId % 2 ^ 32 / 0x10000 % 256) ::
  (msg.resourceId % 2 ^ 32 / 0x100 % 256) ::
  (msg.resourceId % 2 ^ 32 % 256) ::
  msg.data

/-- `decodeMessage` from `src/core/codec.ts`: throws (modelled as
`Except.error`) when the buffer is shorter than the 5-byte header,
otherwise reads the type octet, the big-endian `resourceId`, and slices
off the payload. -/
def decodeMessage (buffer : List Nat) : Except String ProxyMessage :=
  if buffer.length < HEADER_SIZE then
    Except.error "Invalid message: too short"
  else
    Except.ok
      { type := buffer.getD 0 0
        resourceId :=
          buffer.getD 1 0 * 0x1000000 + buffer.getD 2 0 * 0x10000 +
          buffer.getD 3 0 * 0x100 + buffer.getD 4 0
        data := buffer.drop HEADER_SIZE }

/-- `tryDecodeMessage` from `src/core/codec.ts`: `decodeMessage` with the
thrown error caught and turned into `null` (modelled as `none`). -/
def tryDecodeMessage (buffer : List Nat) : Option ProxyMessage :=
  match decodeMessage buffer with
  | Except.ok msg => some msg
  | Except.error _ => none

/-- One observable action of the modelled code: a frame handed to the
transport socket, a callback invocation on a pending handler, a stream
controller operation, a native socket operation, a watchdog reset, or
(on the egress dispatcher) the routing of a frame into a protocol
engine. -/
inductive Eff where
  | send (type resourceId : Nat) (data : List Nat)
  | resolve (resourceId : Nat) (data : List Nat)
  | reject (resourceId : Nat) (message : List Nat)
  | streamError (resourceId : Nat) (message : List Nat)
  | streamEnqueue (resourceId : Nat) (data : List Nat)
  | streamClose (resourceId : Nat)
  | resetWatchdog
  | route (type resourceId : Nat) (data : List Nat)
  | closeNative (resourceId : Nat)
  | writeNative (resourceId : Nat) (data : List Nat)
  | sendDatagram (resourceId : Nat) (host : List Nat) (port : Nat) (payload : List Nat)
  deriving DecidableEq, Repr

/-- Connection state of a transport (`'connecting' | 'connected' |
'disconnected'` in both `client.ts` and the egress transport). -/
inductive ConnState where
  | connecting
  | connected
  | disconnected
  deriving DecidableEq, Repr

/-- A `PendingHandler` table entry from `src/core/client.ts`.  The
`resolve`/`reject` callbacks are modelled by the effects their invocation
produces; `hasStream` records whether the optional `stream` controller is
attached. -/
structure PendingHandler where
  hasStream : Bool
  createdAt : Nat
  deriving DecidableEq, Repr

/-- `MAX_QUEUE_SIZE` from `src/core/client.ts` and the egress transport. -/
def MAX_QUEUE_SIZE : Nat := 1000

/-- `RESOURCE_ID_MAX` from `src/core/client.ts`. -/
def RESOURCE_ID_MAX : Nat := 0xFFFFFFFF

/-- The mutable fields of `ProxyClient` (`src/core/client.ts`) that the
claims touch.  `wsOpen` models `this.ws !== null && this.ws.readyState
=== WebSocket.OPEN`; the pending map is an insertion-ordered association
list like a JS `Map`. -/
structure ClientState where
  nextId : Nat
  pending : List (Nat × PendingHandler)
  messageQueue : List ProxyMessage
  isClosed : Bool
  wsOpen : Bool
  connectionState : ConnState
  lastHeartbeat : Nat
  deriving DecidableEq, Repr

/-- `ProxyClient.send` (`src/core/client.ts`): drop when closed; queue
(bounded by `MAX_QUEUE_SIZE`, overflow drops the new frame) when the
socket is not OPEN; otherwise encode and hand the frame to the socket. -/
def ProxyClient.send (st : ClientState) (type id : Nat) (data : List Nat) :
    ClientState × List Eff :=
  if st.isClosed then (st, [])
  else if st.wsOpen = false then
    if MAX_QUEUE_SIZE ≤ st.messageQueue.length then (st, [])
    else ({ st with messageQueue := st.messageQueue ++ [⟨type, id, data⟩] }, [])
  else (st, [Eff.send type id data])

/-- Iteration helper (not itself source code): emit a list of frames one
after another through `ProxyClient.send`, threading the state and
concatenating the effects. -/
def ProxyClient.sendMany (st : ClientState) : List ProxyMessage → ClientState × List Eff
  | [] => (st, [])
  | m :: rest =>
    let r1 := ProxyClient.send st m.type m.resourceId m.data
    let r2 := ProxyClient.sendMany r1.1 rest
    (r2.1, r1.2 ++ r2.2)

/-- The mutable fields of the egress `ProxyTransport` that the claims
touch. -/
structure TransportState where
  messageQueue : List ProxyMessage
  isClosed : Bool
  wsOpen : Bool
  connectionState : ConnState
  lastHeartbeat : Nat
  deriving DecidableEq, Repr

/-- `ProxyTransport.send` (egress transport source): same structure as
`ProxyClient.send` — drop when closed, bounded queue while the socket is
not OPEN, otherwise send. -/
def ProxyTransport.send (st : TransportState) (type resourceId : Nat)
    (data : List Nat) : TransportState × List Eff :=
  if st.isClosed then (st, [])
  else if st.wsOpen = false then
    if MAX_QUEUE_SIZE ≤ st.messageQueue.length then (st, [])
    else ({ st with messageQueue := st.messageQueue ++ [⟨type, resourceId, data⟩] }, [])
  else (st, [Eff.send type resourceId data])

/-- Iteration helper (not itself source code): emit a list of frames one
after another through `ProxyTransport.send`. -/
def ProxyTransport.sendMany (st : TransportState) : List ProxyMessage → TransportState × List Eff
  | [] => (st, [])
  | m :: rest =>
    let r1 := ProxyTransport.send st m.type m.resourceId m.data
    let r2 := ProxyTransport.sendMany r1.1 rest
    (r2.1, r1.2 ++ r2.2)

/-- `ProxyClient.nextResourceId` (`src/core/client.ts`): returns the
current `nextId` and post-increments it, resetting the counter to 1 once
it reaches `RESOURCE_ID_MAX`.  Modelled as a function from the counter to
(returned id, new counter); the counter starts at 1 (`private nextId = 1`). -/
def ProxyClient.nextResourceId (nextId : Nat) : Nat × Nat :=
  let id := nextId
  let incremented := nextId + 1
  (id, if RESOURCE_ID_MAX ≤ incremented then 1 else incremented)

/-- Counter values of `ProxyClient.nextId` reachable from the initial
value 1 by repeated allocation. -/
inductive ReachableId : Nat → Prop where
  | init : ReachableId 1
  | step (s : Nat) : ReachableId s → ReachableId (ProxyClient.nextResourceId s).2

/-- Worker of the UTF-8 decoder, structurally recursive on a fuel
argument. -/
def utf8DecodeAux : Nat → List Nat → List Nat
  | _, [] => []
  | 0, _ :: _ => []
  | fuel + 1, b :: rest =>
    if b < 0x80 then b :: utf8DecodeAux fuel rest
    else if b < 0xC2 then 0xFFFD :: utf8DecodeAux fuel rest
    else if b < 0xE0 then
      match rest with
      | b1 :: rest1 =>
        if 0x80 ≤ b1 ∧ b1 < 0xC0 then
          ((b - 0xC0) * 0x40 + (b1 - 0x80)) :: utf8DecodeAux fuel rest1
        else 0xFFFD :: utf8DecodeAux fuel rest
      | [] => [0xFFFD]
    else if b < 0xF0 then
      match rest with
      | b1 :: b2 :: rest2 =>
        if (0x80 ≤ b1 ∧ b1 < 0xC0) ∧ (0x80 ≤ b2 ∧ b2 < 0xC0) then
          ((b - 0xE0) * 0x1000 + (b1 - 0x80) * 0x40 + (b2 - 0x80)) ::
            utf8DecodeAux fuel rest2
        else 0xFFFD :: utf8DecodeAux fuel rest
      | _ => 0xFFFD :: utf8DecodeAux fuel rest
    else if b < 0xF5 then
      match rest with
      | b1 :: b2 :: b3 :: rest3 =>
        if (0x80 ≤ b1 ∧ b1 < 0xC0) ∧ (0x80 ≤ b2 ∧ b2 < 0xC0) ∧
            (0x80 ≤ b3 ∧ b3 < 0xC0) then
          ((b - 0xF0) * 0x40000 + (b1 - 0x80) * 0x1000 + (b2 - 0x80) * 0x40 +
            (b3 - 0x80)) :: utf8DecodeAux fuel rest3
        else 0xFFFD :: utf8DecodeAux fuel rest
      | _ => 0xFFFD :: utf8DecodeAux fuel rest
    else 0xFFFD :: utf8DecodeAux fuel rest

/-- Total UTF-8 decoder modelling the JS `TextDecoder` (default options):
valid sequences decode to their code point, invalid lead or continuation
bytes decode to the replacement character U+FFFD.  Returns the list of
decoded code points; the fuel argument of the worker is the buffer
length, which bounds the number of decoded characters. -/
def utf8DecodeR (buffer : List Nat) : List Nat :=
  utf8DecodeAux buffer.length buffer

/-- The code points of the string "Connection closed" used by
`ProxyClient.handleDisconnect`. -/
def connectionClosedMessage : List Nat :=
  (String.toList "Connection closed").map Char.toNat

/-- JS `Map.get` on the pending table (association list). -/
def pendingLookup (pending : List (Nat × PendingHandler)) (resourceId : Nat) :
    Option PendingHandler :=
  (pending.find? (fun p => p.1 == resourceId)).map (fun p => p.2)

/-- JS `Map.delete` on the pending table. -/
def pendingDelete (pending : List (Nat × PendingHandler)) (resourceId : Nat) :
    List (Nat × PendingHandler) :=
  pending.filter (fun p => !(p.1 == resourceId))

/-- `ProxyClient.dispatch` (`src/core/client.ts`).  HEARTBEAT updates the
liveness timestamp and resets the watchdog without replying.  A frame
whose `resourceId` has no pending entry is answered per the `switch` in
the no-handler branch (TCP frames → `TCP_CLOSE`, UDP frames →
`UDP_CLOSE`, `HTTP_BODY_CHUNK` → `HTTP_BODY_END`, anything else
dropped).  With a handler, the second `switch` resolves, enqueues,
closes or rejects; `handler.stream!.enqueue` on a missing controller
throws, and for `TCP_DATA` the catch deletes the entry and sends
`TCP_CLOSE` while for `HTTP_BODY_CHUNK` the catch only logs. -/
def ProxyClient.dispatch (now : Nat) (st : ClientState) (msg : ProxyMessage) :
    ClientState × List Eff :=
  if msg.type = MessageType.HEARTBEAT then
    ({ st with lastHeartbeat := now }, [Eff.resetWatchdog])
  else
    match pendingLookup st.pending msg.resourceId with
    | none =>
      if msg.type = MessageType.TCP_CONNECT ∨ msg.type = MessageType.TCP_CONNECT_ACK ∨
          msg.type = MessageType.TCP_DATA then
        ProxyClient.send st MessageType.TCP_CLOSE msg.resourceId []
      else if msg.type = MessageType.UDP_BIND ∨ msg.type = MessageType.UDP_BIND_ACK ∨
          msg.type = MessageType.UDP_DATA ∨ msg.type = MessageType.UDP_CLOSE then
        ProxyClient.send st MessageType.UDP_CLOSE msg.resourceId []
      else if msg.type = MessageType.HTTP_BODY_CHUNK then
        ProxyClient.send st MessageType.HTTP_BODY_END msg.resourceId []
      else (st, [])
    | some handler =>
      if msg.type = MessageType.TCP_CONNECT_ACK then
        (st, [Eff.resolve msg.resourceId msg.data])
      else if msg.type = MessageType.DNS_RESPONSE then
        (st, [Eff.resolve msg.resourceId msg.data])
      else if msg.type = MessageType.TCP_DATA then
        if handler.hasStream then (st, [Eff.streamEnqueue msg.resourceId msg.data])
        else
          ProxyClient.send { st with pending := pendingDelete st.pending msg.resourceId }
            MessageType.TCP_CLOSE msg.resourceId []
      else if msg.type = MessageType.TCP_CLOSE then
        ({ st with pending := pendingDelete st.pending msg.resourceId },
         if handler.hasStream then [Eff.streamClose msg.resourceId] else [])
      else if msg.type = MessageType.HTTP_RESPONSE then
        (st, [Eff.resolve msg.resourceId msg.data])
      else if msg.type = MessageType.HTTP_BODY_CHUNK then
        (st, if handler.hasStream then [Eff.streamEnqueue msg.resourceId msg.data] else [])
      else if msg.type = MessageType.HTTP_BODY_END then
        ({ st with pending := pendingDelete st.pending msg.resourceId },
         if handler.hasStream then [Eff.streamClose msg.resourceId] else [])
      else if msg.type = MessageType.ERROR then
        ({ st with pending := pendingDelete st.pending msg.resourceId },
         (if handler.hasStream then
            [Eff.streamError msg.resourceId (utf8DecodeR msg.data)]
          else []) ++
         [Eff.reject msg.resourceId (utf8DecodeR msg.data)])
      else (st, [])

/-- The `for (const [id, handler] of this.pending)` loop body of
`ProxyClient.handleDisconnect`: error the attached stream (if any) and
reject each pending entry with "Connection closed". -/
def ProxyClient.rejectPendingEffects (pending : List (Nat × PendingHandler)) : List Eff :=
  pending.foldr (fun p acc =>
    (if p.2.hasStream then [Eff.streamError p.1 connectionClosedMessage] else []) ++
    [Eff.reject p.1 connectionClosedMessage] ++ acc) []

/-- `ProxyClient.handleDisconnect` (`src/core/client.ts`): a no-op when
already disconnected; otherwise mark disconnected, clear the message
queue, reject every pending entry (erroring its stream first) with
"Connection closed", and clear the pending table.  `isClosed` is left
untouched so `assign` can reconnect. -/
def ProxyClient.handleDisconnect (st : ClientState) : ClientState × List Eff :=
  if st.connectionState = ConnState.disconnected then (st, [])
  else
    ({ st with connectionState := ConnState.disconnected,
               messageQueue := [],
               pending := [] },
     ProxyClient.rejectPendingEffects st.pending)

/-- `ProxyTransport.dispatch` (egress transport source).  HEARTBEAT
updates the liveness timestamp, resets the watchdog, and echoes a
HEARTBEAT with the same `resourceId` and payload through
`ProxyTransport.send`; every other frame is routed into the matching
protocol engine inside a try/catch (modelled as a `route` effect; the
engines themselves are modelled separately below). -/
def ProxyTransport.dispatch (now : Nat) (st : TransportState) (msg : ProxyMessage) :
    TransportState × List Eff :=
  if msg.type = MessageType.HEARTBEAT then
    let r := ProxyTransport.send { st with lastHeartbeat := now }
      MessageType.HEARTBEAT msg.resourceId msg.data
    (r.1, Eff.resetWatchdog :: r.2)
  else
    (st, [Eff.route msg.type msg.resourceId msg.data])

/-- The per-stream tables of the egress `TCPProxy`
(`src/core/protocol/tcp.ts`): the ids of live native connections
(`connections` map) and the "closing" guard set. -/
structure TcpState where
  connections : List Nat
  closing : List Nat
  deriving DecidableEq, Repr

/-- `TCPProxy.handleData` (`src/core/protocol/tcp.ts`): data for an
unknown connection is logged and dropped; data for a closing connection
is ignored; otherwise the bytes are written to the native socket (the
asynchronous write-failure path calls `close` later and is outside this
synchronous step). -/
def TCPProxy.handleData (st : TcpState) (resourceId : Nat) (data : List Nat) :
    TcpState × List Eff :=
  if ¬ resourceId ∈ st.connections then (st, [])
  else if resourceId ∈ st.closing then (st, [])
  else (st, [Eff.writeNative resourceId data])

/-- `TCPProxy.close` (`src/core/protocol/tcp.ts`): return if already
closing or unknown; otherwise take the closing guard, close the native
socket, delete the connection and the guard, and send one `TCP_CLOSE`
(via the injected `sendMessage` callback, modelled as an `Eff.send`). -/
def TCPProxy.close (st : TcpState) (resourceId : Nat) : TcpState × List Eff :=
  if resourceId ∈ st.closing then (st, [])
  else if ¬ resourceId ∈ st.connections then (st, [])
  else
    let closing1 := resourceId :: st.closing
    let connections1 := st.connections.filter (fun id => !(id == resourceId))
    let closing2 := closing1.filter (fun id => !(id == resourceId))
    ({ connections := connections1, closing := closing2 },
     [Eff.closeNative resourceId, Eff.send MessageType.TCP_CLOSE resourceId []])

/-- The per-stream tables of the egress `UDPProxy`
(`src/core/protocol/udp.ts`): ids of live datagram sockets and the
closing guard set. -/
structure UdpState where
  sockets : List Nat
  closing : List Nat
  deriving DecidableEq, Repr

/-- `UDPProxy.handleData` (`src/core/protocol/udp.ts`): data for an
unknown socket is logged and dropped; data for a closing socket is
ignored; otherwise the little-endian length-prefixed target host/port are
parsed (parse failures and oversized payloads are caught and logged) and
the payload is sent to the target. -/
def UDPProxy.handleData (st : UdpState) (resourceId : Nat) (data : List Nat) :
    UdpState × List Eff :=
  if ¬ resourceId ∈ st.sockets then (st, [])
  else if resourceId ∈ st.closing then (st, [])
  else if data.length < 4 then (st, [])
  else
    let hostLen := data.getD 0 0 + data.getD 1 0 * 256
    if data.length < 2 + hostLen + 2 then (st, [])
    else
      let host := (data.drop 2).take hostLen
      let port := data.getD (2 + hostLen) 0 + data.getD (2 + hostLen + 1) 0 * 256
      let payload := data.drop (2 + hostLen + 2)
      if 65535 < payload.length then (st, [])
      else (st, [Eff.sendDatagram resourceId host port payload])

/-- `DNSProxy.sendError` (`src/core/protocol/dns.ts`): the ERROR payload
is one flag byte 1 followed by the UTF-8 bytes of the error message
(`messageBytes` stands for `new TextEncoder().encode(message)`). -/
def DNSProxy.sendError (resourceId : Nat) (messageBytes : List Nat) : List Eff :=
  [Eff.send MessageType.ERROR resourceId (1 :: messageBytes)]

/-- The fields of a JS `Response` that `HTTPProxy.clone` reads; `headers`
is the (unique-key) entry list of the `Headers` object, `body` is
`!!response.body`. -/
structure JsResponse where
  headers : List (String × String)
  status : Nat
  statusText : String
  url : String
  body : Bool
  deriving DecidableEq, Repr

/-- The `HTTPResponse` metadata record (`src/core/protocol.ts`) sent in
the `HTTP_RESPONSE` frame. -/
structure HTTPResponse where
  headers : List (String × String)
  status : Nat
  statusText : String
  url : String
  body : Bool
  deriving DecidableEq, Repr

/-- ASCII lower-casing of one character, as JS `toLowerCase` acts on the
ASCII range (header names are ASCII). -/
def asciiLowerChar (c : Char) : Char :=
  if 'A' ≤ c ∧ c ≤ 'Z' then Char.ofNat (c.toNat + 32) else c

/-- ASCII lower-casing of a string. -/
def asciiLower (s : String) : String :=
  String.mk (s.data.map asciiLowerChar)

/-- `HTTPProxy.clone` (egress HTTP engine, `src/core/protocol/udp.ts`
lines 416-430): copy every header whose lower-cased name is not
`transfer-encoding`, and carry over status, statusText, url and the
has-body flag. -/
def HTTPProxy.clone (response : JsResponse) : HTTPResponse :=
  { headers := response.headers.filter
      (fun kv => !(asciiLower kv.1 == "transfer-encoding"))
    status := response.status
    statusText := response.statusText
    url := response.url
    body := response.body }

/-- Claim C7: for every frame with `type` in [0, 255], `resourceId` in [0, 2^32)
and arbitrary payload bytes, `decodeMessage (encodeMessage f) = f`. -/
theorem decode_encode_roundtrip (msg : ProxyMessage)
    (htype : msg.type ≤ 255) (hid : msg.resourceId < 2 ^ 32) :
    decodeMessage (encodeMessage msg) = Except.ok msg := by
  obtain ⟨t, r, d⟩ := msg
  simp only [ProxyMessage.type] at htype
  simp only [ProxyMessage.resourceId] at hid
  simp only [encodeMessage, decodeMessage, HEADER_SIZE, List.length_cons,
    List.getD_cons_zero, List.getD_cons_succ, List.drop_succ_cons,
    List.drop_zero]
  rw [if_neg (by omega)]
  simp only [Except.ok.injEq, ProxyMessage.mk.injEq]
  exact ⟨by omega, by omega, trivial⟩

/-- Witness for C7 at a concrete frame. -/
theorem decode_encode_roundtrip_witness :
    decodeMessage (encodeMessage ⟨0x31, 0x01020304, [9, 8, 7]⟩) =
      Except.ok ⟨0x31, 0x01020304, [9, 8, 7]⟩ :=
  decode_encode_roundtrip ⟨0x31, 0x01020304, [9, 8, 7]⟩ (by decide) (by decide)

/-- Claim C10: `tryDecodeMessage` is total (a Lean function), returns `none`
exactly when the buffer is shorter than the 5-byte header, and otherwise
returns `some` of exactly the frame `decodeMessage` yields on that buffer. -/
theorem tryDecodeMessage_total (buffer : List Nat) :
    (tryDecodeMessage buffer = none ↔ buffer.length < HEADER_SIZE) ∧
    (HEADER_SIZE ≤ buffer.length →
      ∃ msg, decodeMessage buffer = Except.ok msg ∧
        tryDecodeMessage buffer = some msg) := by
  constructor
  · constructor
    · intro h
      by_contra hlen
      simp only [tryDecodeMessage, decodeMessage] at h
      rw [if_neg hlen] at h
      exact Option.noConfusion h
    · intro hlen
      simp only [tryDecodeMessage, decodeMessage]
      rw [if_pos hlen]
  · intro hlen
    refine ⟨{ type := buffer.getD 0 0
              resourceId :=
                buffer.getD 1 0 * 0x1000000 + buffer.getD 2 0 * 0x10000 +
                buffer.getD 3 0 * 0x100 + buffer.getD 4 0
              data := buffer.drop HEADER_SIZE }, ?_, ?_⟩
    · simp only [decodeMessage]
      rw [if_neg (by omega)]
    · simp only [tryDecodeMessage, decodeMessage]
      rw [if_neg (by omega)]

/-- Witness for C10: a short buffer decodes to `none`; a 6-byte buffer
decodes to the same frame `decodeMessage` yields. -/
theorem tryDecodeMessage_total_witness :
    tryDecodeMessage [1, 2, 3] = none ∧
    ∃ msg, decodeMessage [3, 0, 0, 0, 7, 42] = Except.ok msg ∧
      tryDecodeMessage [3, 0, 0, 0, 7, 42] = some msg :=
  ⟨(tryDecodeMessage_total [1, 2, 3]).1.mpr (by decide),
   (tryDecodeMessage_total [3, 0, 0, 0, 7, 42]).2 (by decide)⟩

lemma clientSendMany_queued (msgs : List ProxyMessage) (st : ClientState)
    (hc : st.isClosed = false) (hw : st.wsOpen = false) :
    (ProxyClient.sendMany st msgs).1 =
      { st with messageQueue :=
          st.messageQueue ++ msgs.take (MAX_QUEUE_SIZE - st.messageQueue.length) } ∧
    (ProxyClient.sendMany st msgs).2 = [] := by
  induction msgs generalizing st with
  | nil => simp [ProxyClient.sendMany]
  | cons m rest ih =>
    by_cases hfull : MAX_QUEUE_SIZE ≤ st.messageQueue.length
    · have hsend : ProxyClient.send st m.type m.resourceId m.data = (st, []) := by
        simp [ProxyClient.send, hc, hw, hfull]
      have := ih st hc hw
      simp only [ProxyClient.sendMany, hsend] at *
      rw [show MAX_QUEUE_SIZE - st.messageQueue.length = 0 by omega] at *
      simpa using this
    · have hsend : ProxyClient.send st m.type m.resourceId m.data =
          ({ st with messageQueue := st.messageQueue ++ [⟨m.type, m.resourceId, m.data⟩] }, []) := by
        simp [ProxyClient.send, hc, hw, hfull]
      have := ih { st with messageQueue := st.messageQueue ++ [⟨m.type, m.resourceId, m.data⟩] }
        hc hw
      simp only [ProxyClient.sendMany, hsend] at *
      rw [show MAX_QUEUE_SIZE - st.messageQueue.length =
            (MAX_QUEUE_SIZE - (st.messageQueue.length + 1)) + 1 by omega,
          List.take_succ_cons]
      simpa [List.append_assoc] using this

lemma transportSendMany_queued (msgs : List ProxyMessage) (st : TransportState)
    (hc : st.isClosed = false) (hw : st.wsOpen = false) :
    (ProxyTransport.sendMany st msgs).1 =
      { st with messageQueue :=
          st.messageQueue ++ msgs.take (MAX_QUEUE_SIZE - st.messageQueue.length) } ∧
    (ProxyTransport.sendMany st msgs).2 = [] := by
  induction msgs generalizing st with
  | nil => simp [ProxyTransport.sendMany]
  | cons m rest ih =>
    by_cases hfull : MAX_QUEUE_SIZE ≤ st.messageQueue.length
    · have hsend : ProxyTransport.send st m.type m.resourceId m.data = (st, []) := by
        simp [ProxyTransport.send, hc, hw, hfull]
      have := ih st hc hw
      simp only [ProxyTransport.sendMany, hsend] at *
      rw [show MAX_QUEUE_SIZE - st.messageQueue.length = 0 by omega] at *
      simpa using this
    · have hsend : ProxyTransport.send st m.type m.resourceId m.data =
          ({ st with messageQueue := st.messageQueue ++ [⟨m.type, m.resourceId, m.data⟩] }, []) := by
        simp [ProxyTransport.send, hc, hw, hfull]
      have := ih { st with messageQueue := st.messageQueue ++ [⟨m.type, m.resourceId, m.data⟩] }
        hc hw
      simp only [ProxyTransport.sendMany, hsend] at *
      rw [show MAX_QUEUE_SIZE - st.messageQueue.length =
            (MAX_QUEUE_SIZE - (st.messageQueue.length + 1)) + 1 by omega,
          List.take_succ_cons]
      simpa [List.append_assoc] using this

/-- Claim C4: while the socket is not OPEN (and the client/transport is not
closed), `send` appends the frame to the queue only when fewer than
`MAX_QUEUE_SIZE` frames are queued and drops it otherwise, and after
emitting `MAX_QUEUE_SIZE + k` frames from an empty queue exactly the
first `MAX_QUEUE_SIZE` frames remain, in original FIFO order, the last
`k` dropped.  Stated for both `ProxyClient.send` and `ProxyTransport.send`. -/
theorem send_queue_bound_fifo :
    (∀ (st : ClientState) (type id : Nat) (data : List Nat),
      st.isClosed = false → st.wsOpen = false →
      (st.messageQueue.length < MAX_QUEUE_SIZE →
        (ProxyClient.send st type id data).1.messageQueue =
          st.messageQueue ++ [⟨type, id, data⟩]) ∧
      (MAX_QUEUE_SIZE ≤ st.messageQueue.length →
        (ProxyClient.send st type id data).1 = st)) ∧
    (∀ (st : ClientState) (msgs : List ProxyMessage) (k : Nat),
      st.isClosed = false → st.wsOpen = false → st.messageQueue = [] →
      msgs.length = MAX_QUEUE_SIZE + k →
      (ProxyClient.sendMany st msgs).1.messageQueue = msgs.take MAX_QUEUE_SIZE ∧
      (ProxyClient.sendMany st msgs).1.messageQueue.length = MAX_QUEUE_SIZE) ∧
    (∀ (st : TransportState) (type id : Nat) (data : List Nat),
      st.isClosed = false → st.wsOpen = false →
      (st.messageQueue.length < MAX_QUEUE_SIZE →
        (ProxyTransport.send st type id data).1.messageQueue =
          st.messageQueue ++ [⟨type, id, data⟩]) ∧
      (MAX_QUEUE_SIZE ≤ st.messageQueue.length →
        (ProxyTransport.send st type id data).1 = st)) ∧
    (∀ (st : TransportState) (msgs : List ProxyMessage) (k : Nat),
      st.isClosed = false → st.wsOpen = false → st.messageQueue = [] →
      msgs.length = MAX_QUEUE_SIZE + k →
      (ProxyTransport.sendMany st msgs).1.messageQueue = msgs.take MAX_QUEUE_SIZE ∧
      (ProxyTransport.sendMany st msgs).1.messageQueue.length = MAX_QUEUE_SIZE) := by
  refine ⟨?_, ?_, ?_, ?_⟩
  · intro st type id data hc hw
    constructor
    · intro hlt
      simp [ProxyClient.send, hc, hw]
      rw [if_neg (by omega : ¬ MAX_QUEUE_SIZE ≤ st.messageQueue.length)]
    · intro hge
      simp [ProxyClient.send, hc, hw, hge]
  · intro st msgs k hc hw hq hlen
    have h := (clientSendMany_queued msgs st hc hw).1
    rw [h, hq]
    simp only [List.length_nil, Nat.sub_zero, List.nil_append, List.length_take]
    exact ⟨trivial, by omega⟩
  · intro st type id data hc hw
    constructor
    · intro hlt
      simp [ProxyTransport.send, hc, hw]
      rw [if_neg (by omega : ¬ MAX_QUEUE_SIZE ≤ st.messageQueue.length)]
    · intro hge
      simp [ProxyTransport.send, hc, hw, hge]
  · intro st msgs k hc hw hq hlen
    have h := (transportSendMany_queued msgs st hc hw).1
    rw [h, hq]
    simp only [List.length_nil, Nat.sub_zero, List.nil_append, List.length_take]
    exact ⟨trivial, by omega⟩

lemma ReachableId.bounds {s : Nat} (h : ReachableId s) :
    1 ≤ s ∧ s < RESOURCE_ID_MAX := by
  induction h with
  | init => exact ⟨le_refl 1, by simp [RESOURCE_ID_MAX]⟩
  | step s _ ih =>
    simp only [ProxyClient.nextResourceId]
    split
    · exact ⟨le_refl 1, by simp [RESOURCE_ID_MAX]⟩
    · simp only [RESOURCE_ID_MAX] at *
      omega

/-- Claim C3: starting from 1, the allocator returns ids in
[1, 2^32 − 1] and never 0; between consecutive allocations before
the wrap point the returned ids are strictly increasing (each next id is
the previous plus one); and when the counter reaches `RESOURCE_ID_MAX`
(2^32 − 1) it wraps so that the next allocation returns 1. -/
theorem nextResourceId_monotone_wrap :
    (ProxyClient.nextResourceId 1).1 = 1 ∧
    (∀ s, ReachableId s →
      1 ≤ (ProxyClient.nextResourceId s).1 ∧
      (ProxyClient.nextResourceId s).1 ≤ 2 ^ 32 - 1 ∧
      (ProxyClient.nextResourceId s).1 ≠ 0) ∧
    (∀ s, ReachableId s → s + 1 < RESOURCE_ID_MAX →
      (ProxyClient.nextResourceId s).1 <
        (ProxyClient.nextResourceId (ProxyClient.nextResourceId s).2).1 ∧
      (ProxyClient.nextResourceId (ProxyClient.nextResourceId s).2).1 = s + 1) ∧
    (∀ s, RESOURCE_ID_MAX ≤ s + 1 →
      (ProxyClient.nextResourceId s).2 = 1 ∧
      (ProxyClient.nextResourceId (ProxyClient.nextResourceId s).2).1 = 1) := by
  refine ⟨rfl, ?_, ?_, ?_⟩
  · intro s hs
    have hb := hs.bounds
    simp only [ProxyClient.nextResourceId, RESOURCE_ID_MAX] at *
    omega
  · intro s hs hlt
    have hb := hs.bounds
    simp only [ProxyClient.nextResourceId, RESOURCE_ID_MAX] at *
    rw [if_neg (by omega)]
    omega
  · intro s hwrap
    simp only [ProxyClient.nextResourceId, RESOURCE_ID_MAX] at *
    rw [if_pos (by omega)]
    exact ⟨rfl, rfl⟩

/-- Witness for C3: the components applied at the initial counter 1 and,
for the wrap component, at the counter value 2^32 − 2 (whose increment
reaches `RESOURCE_ID_MAX`). -/
theorem nextResourceId_monotone_wrap_witness :
    ((ProxyClient.nextResourceId 1).1 = 1) ∧
    (1 ≤ (ProxyClient.nextResourceId 1).1 ∧
      (ProxyClient.nextResourceId 1).1 ≤ 2 ^ 32 - 1 ∧
      (ProxyClient.nextResourceId 1).1 ≠ 0) ∧
    ((ProxyClient.nextResourceId 1).1 <
        (ProxyClient.nextResourceId (ProxyClient.nextResourceId 1).2).1 ∧
      (ProxyClient.nextResourceId (ProxyClient.nextResourceId 1).2).1 = 2) ∧
    ((ProxyClient.nextResourceId 0xFFFFFFFE).2 = 1 ∧
      (ProxyClient.nextResourceId (ProxyClient.nextResourceId 0xFFFFFFFE).2).1 = 1) :=
  ⟨nextResourceId_monotone_wrap.1,
   nextResourceId_monotone_wrap.2.1 1 ReachableId.init,
   nextResourceId_monotone_wrap.2.2.1 1 ReachableId.init (by decide),
   nextResourceId_monotone_wrap.2.2.2 0xFFFFFFFE (by decide)⟩

lemma utf8DecodeR_flag_byte (l : List Nat) :
    utf8DecodeR (1 :: l) = 1 :: utf8DecodeR l := by
  show utf8DecodeAux (l.length + 1) (1 :: l) = 1 :: utf8DecodeAux l.length l
  simp only [utf8DecodeAux]
  norm_num

/-- Counterexample to claim C1 as stated: at a concrete connected egress
transport state, dispatching an inbound HEARTBEAT frame makes the egress
side send a HEARTBEAT frame back on the same transport. -/
theorem transport_dispatch_echoes_heartbeat :
    (ProxyTransport.dispatch 5
        { messageQueue := [], isClosed := false, wsOpen := true,
          connectionState := ConnState.connected, lastHeartbeat := 0 }
        ⟨MessageType.HEARTBEAT, 0, [7]⟩).2 =
      [Eff.resetWatchdog, Eff.send MessageType.HEARTBEAT 0 [7]] := by
  decide

/-- Claim C1 amended: on an inbound HEARTBEAT the initiator's dispatcher
updates its liveness timestamp, resets the watchdog and sends nothing;
the egress dispatcher updates its liveness timestamp, resets the
watchdog, and (when the socket is open) echoes one HEARTBEAT with the
same `resourceId` and payload on the same transport. -/
theorem heartbeat_echo_policy :
    (∀ (now : Nat) (st : ClientState) (msg : ProxyMessage),
      msg.type = MessageType.HEARTBEAT →
      ProxyClient.dispatch now st msg =
        ({ st with lastHeartbeat := now }, [Eff.resetWatchdog])) ∧
    (∀ (now : Nat) (st : TransportState) (msg : ProxyMessage),
      msg.type = MessageType.HEARTBEAT →
      st.isClosed = false → st.wsOpen = true →
      ProxyTransport.dispatch now st msg =
        ({ st with lastHeartbeat := now },
         [Eff.resetWatchdog,
          Eff.send MessageType.HEARTBEAT msg.resourceId msg.data])) := by
  constructor
  · intro now st msg h
    simp [ProxyClient.dispatch, h]
  · intro now st msg h hc hw
    simp [ProxyTransport.dispatch, ProxyTransport.send, h, hc, hw]

/-- Witness for the amended C1 at concrete states and frames. -/
theorem heartbeat_echo_policy_witness :
    ProxyClient.dispatch 3
        { nextId := 1, pending := [], messageQueue := [], isClosed := false,
          wsOpen := true, connectionState := ConnState.connected, lastHeartbeat := 0 }
        ⟨MessageType.HEARTBEAT, 0, []⟩ =
      ({ nextId := 1, pending := [], messageQueue := [], isClosed := false,
         wsOpen := true, connectionState := ConnState.connected, lastHeartbeat := 3 },
       [Eff.resetWatchdog]) ∧
    ProxyTransport.dispatch 5
        { messageQueue := [], isClosed := false, wsOpen := true,
          connectionState := ConnState.connected, lastHeartbeat := 0 }
        ⟨MessageType.HEARTBEAT, 0, [7]⟩ =
      ({ messageQueue := [], isClosed := false, wsOpen := true,
         connectionState := ConnState.connected, lastHeartbeat := 5 },
       [Eff.resetWatchdog, Eff.send MessageType.HEARTBEAT 0 [7]]) :=
  ⟨heartbeat_echo_policy.1 3 _ _ rfl, heartbeat_echo_policy.2 5 _ _ rfl rfl rfl⟩

/-- Counterexample to claim C2 as stated: at a concrete initiator state
with an empty pending table, an inbound `DNS_RESPONSE` for an unknown
`resourceId` produces no reply frame at all (the claim demands a
matching terminal frame), and likewise the egress `TCPProxy.handleData`
produces no frame for an unknown connection. -/
theorem unknown_resource_silent_drop_counterexample :
    (ProxyClient.dispatch 0
        { nextId := 1, pending := [], messageQueue := [], isClosed := false,
          wsOpen := true, connectionState := ConnState.connected, lastHeartbeat := 0 }
        ⟨MessageType.DNS_RESPONSE, 7, [4, 2]⟩).2 = [] ∧
    (TCPProxy.handleData { connections := [], closing := [] } 7 [9]).2 = [] := by
  decide

/-- Claim C2 amended: an inbound non-heartbeat frame whose `resourceId`
has no pending entry never raises and never changes the initiator's
state; the initiator replies `TCP_CLOSE` to unknown
TCP_CONNECT/TCP_CONNECT_ACK/TCP_DATA, `UDP_CLOSE` to unknown
UDP_BIND/UDP_BIND_ACK/UDP_DATA/UDP_CLOSE, `HTTP_BODY_END` to unknown
HTTP_BODY_CHUNK, and silently drops every other type — in particular
`DNS_RESPONSE` and `HTTP_RESPONSE` get no reply.  On the egress side,
`TCPProxy.handleData` and `UDPProxy.handleData` silently drop data for
an unknown `resourceId` without emitting any frame. -/
theorem unknown_resource_reply_policy :
    (∀ (now : Nat) (st : ClientState) (msg : ProxyMessage),
      pendingLookup st.pending msg.resourceId = none →
      msg.type ≠ MessageType.HEARTBEAT →
      st.isClosed = false → st.wsOpen = true →
      ProxyClient.dispatch now st msg =
        (st,
         if msg.type = MessageType.TCP_CONNECT ∨ msg.type = MessageType.TCP_CONNECT_ACK ∨
             msg.type = MessageType.TCP_DATA then
           [Eff.send MessageType.TCP_CLOSE msg.resourceId []]
         else if msg.type = MessageType.UDP_BIND ∨ msg.type = MessageType.UDP_BIND_ACK ∨
             msg.type = MessageType.UDP_DATA ∨ msg.type = MessageType.UDP_CLOSE then
           [Eff.send MessageType.UDP_CLOSE msg.resourceId []]
         else if msg.type = MessageType.HTTP_BODY_CHUNK then
           [Eff.send MessageType.HTTP_BODY_END msg.resourceId []]
         else [])) ∧
    (∀ (st : TcpState) (resourceId : Nat) (data : List Nat),
      ¬ resourceId ∈ st.connections →
      TCPProxy.handleData st resourceId data = (st, [])) ∧
    (∀ (st : UdpState) (resourceId : Nat) (data : List Nat),
      ¬ resourceId ∈ st.sockets →
      UDPProxy.handleData st resourceId data = (st, [])) := by
  refine ⟨?_, ?_, ?_⟩
  · intro now st msg hnone hne hc hw
    simp only [ProxyClient.dispatch, hnone]
    rw [if_neg hne]
    split_ifs with h1 h2 h3 <;>
      simp [ProxyClient.send, hc, hw]
  · intro st resourceId data h
    simp [TCPProxy.handleData, h]
  · intro st resourceId data h
    simp [UDPProxy.handleData, h]

/-- Witness for the amended C2: concrete unknown-id frames on both
sides — a TCP_DATA frame gets a TCP_CLOSE reply, a DNS_RESPONSE frame
gets nothing, and the egress engines drop silently. -/
theorem unknown_resource_reply_policy_witness :
    ProxyClient.dispatch 0
        { nextId := 1, pending := [], messageQueue := [], isClosed := false,
          wsOpen := true, connectionState := ConnState.connected, lastHeartbeat := 0 }
        ⟨MessageType.TCP_DATA, 7, [1]⟩ =
      ({ nextId := 1, pending := [], messageQueue := [], isClosed := false,
         wsOpen := true, connectionState := ConnState.connected, lastHeartbeat := 0 },
       [Eff.send MessageType.TCP_CLOSE 7 []]) ∧
    ProxyClient.dispatch 0
        { nextId := 1, pending := [], messageQueue := [], isClosed := false,
          wsOpen := true, connectionState := ConnState.connected, lastHeartbeat := 0 }
        ⟨MessageType.DNS_RESPONSE, 7, [4, 2]⟩ =
      ({ nextId := 1, pending := [], messageQueue := [], isClosed := false,
         wsOpen := true, connectionState := ConnState.connected, lastHeartbeat := 0 },
       []) ∧
    TCPProxy.handleData { connections := [], closing := [] } 7 [9] =
      ({ connections := [], closing := [] }, []) ∧
    UDPProxy.handleData { sockets := [], closing := [] } 7 [9] =
      ({ sockets := [], closing := [] }, []) := by
  refine ⟨?_, ?_, ?_, ?_⟩
  · have := unknown_resource_reply_policy.1 0
      { nextId := 1, pending := [], messageQueue := [], isClosed := false,
        wsOpen := true, connectionState := ConnState.connected, lastHeartbeat := 0 }
      ⟨MessageType.TCP_DATA, 7, [1]⟩ rfl (by decide) rfl rfl
    simpa using this
  · have := unknown_resource_reply_policy.1 0
      { nextId := 1, pending := [], messageQueue := [], isClosed := false,
        wsOpen := true, connectionState := ConnState.connected, lastHeartbeat := 0 }
      ⟨MessageType.DNS_RESPONSE, 7, [4, 2]⟩ rfl (by decide) rfl rfl
    simpa using this
  · exact unknown_resource_reply_policy.2.1 _ 7 [9] (by decide)
  · exact unknown_resource_reply_policy.2.2 _ 7 [9] (by decide)

/-- Claim C5: the first `TCPProxy.close` on a live connection closes the
native socket, removes the table entry (the closing guard is taken and
then released, leaving the closing set unchanged), and sends exactly one
`TCP_CLOSE`; and `close` is idempotent — a second `close` on the
resulting state (for any starting state) changes nothing and sends no
frame, so the egress emits at most one `TCP_CLOSE` per stream. -/
theorem tcp_close_idempotent :
    (∀ (st : TcpState) (resourceId : Nat),
      resourceId ∈ st.connections → ¬ resourceId ∈ st.closing →
      TCPProxy.close st resourceId =
        ({ connections := st.connections.filter (fun id => !(id == resourceId)),
           closing := st.closing },
         [Eff.closeNative resourceId,
          Eff.send MessageType.TCP_CLOSE resourceId []]) ∧
      ¬ resourceId ∈ (TCPProxy.close st resourceId).1.connections) ∧
    (∀ (st : TcpState) (resourceId : Nat),
      TCPProxy.close (TCPProxy.close st resourceId).1 resourceId =
        ((TCPProxy.close st resourceId).1, [])) := by
  have hclosing : ∀ (closing : List Nat) (resourceId : Nat),
      ¬ resourceId ∈ closing →
      (resourceId :: closing).filter (fun id => !(id == resourceId)) = closing := by
    intro closing resourceId hncl
    rw [List.filter_cons_of_neg (by simp)]
    exact List.filter_eq_self.mpr (fun a ha => by
      simp only [Bool.not_eq_true']
      exact beq_false_of_ne (fun h => hncl (h ▸ ha)))
  constructor
  · intro st resourceId hmem hncl
    constructor
    · simp only [TCPProxy.close]
      rw [if_neg hncl, if_neg (not_not_intro hmem)]
      simp [hclosing st.closing resourceId hncl]
    · simp only [TCPProxy.close]
      rw [if_neg hncl, if_neg (not_not_intro hmem)]
      simp
  · intro st resourceId
    by_cases h1 : resourceId ∈ st.closing
    · have hfst : TCPProxy.close st resourceId = (st, []) := by
        simp only [TCPProxy.close]
        rw [if_pos h1]
      rw [hfst]
      simp only [TCPProxy.close]
      rw [if_pos h1]
    · by_cases h2 : resourceId ∈ st.connections
      · have hfst : TCPProxy.close st resourceId =
            ({ connections := st.connections.filter (fun id => !(id == resourceId)),
               closing := (resourceId :: st.closing).filter (fun id => !(id == resourceId)) },
             [Eff.closeNative resourceId,
              Eff.send MessageType.TCP_CLOSE resourceId []]) := by
          simp only [TCPProxy.close]
          rw [if_neg h1, if_neg (not_not_intro h2)]
        rw [hfst]
        simp only [TCPProxy.close]
        rw [if_neg (by simp), if_pos (by simp)]
      · have hfst : TCPProxy.close st resourceId = (st, []) := by
          simp only [TCPProxy.close]
          rw [if_neg h1, if_pos h2]
        rw [hfst]
        simp only [TCPProxy.close]
        rw [if_neg h1, if_pos h2]

/-- Witness for C5 at a concrete table holding one live connection. -/
theorem tcp_close_idempotent_witness :
    TCPProxy.close { connections := [7], closing := [] } 7 =
      ({ connections := List.filter (fun id => !(id == 7)) [7], closing := [] },
       [Eff.closeNative 7, Eff.send MessageType.TCP_CLOSE 7 []]) ∧
    ¬ 7 ∈ (TCPProxy.close { connections := [7], closing := [] } 7).1.connections ∧
    TCPProxy.close (TCPProxy.close { connections := [7], closing := [] } 7).1 7 =
      ((TCPProxy.close { connections := [7], closing := [] } 7).1, []) :=
  ⟨(tcp_close_idempotent.1 { connections := [7], closing := [] } 7 (by decide) (by decide)).1,
   (tcp_close_idempotent.1 { connections := [7], closing := [] } 7 (by decide) (by decide)).2,
   tcp_close_idempotent.2 { connections := [7], closing := [] } 7⟩

lemma mem_rejectPendingEffects (pending : List (Nat × PendingHandler))
    (p : Nat × PendingHandler) (hp : p ∈ pending) :
    Eff.reject p.1 connectionClosedMessage ∈ ProxyClient.rejectPendingEffects pending ∧
    (p.2.hasStream = true →
      Eff.streamError p.1 connectionClosedMessage ∈
        ProxyClient.rejectPendingEffects pending) := by
  induction pending with
  | nil => cases hp
  | cons q rest ih =>
    simp only [ProxyClient.rejectPendingEffects, List.foldr_cons] at *
    rcases List.mem_cons.mp hp with heq | hmem
    · subst heq
      constructor
      · simp [List.mem_append]
      · intro hs
        simp [List.mem_append, hs]
    · have hih := ih hmem
      constructor
      · simp only [List.mem_append]
        exact Or.inr hih.1
      · intro hs
        simp only [List.mem_append]
        exact Or.inr (hih.2 hs)

/-- Claim C6: when the initiator's transport disconnects (all three
triggers funnel into `handleDisconnect`, which is a no-op only when
already disconnected), every pending entry has its reject callback
invoked with "Connection closed", any attached body stream is errored
with the same message, and afterwards the pending table is empty (and
the state is marked disconnected). -/
theorem disconnect_rejects_all_pending (st : ClientState)
    (h : ¬ st.connectionState = ConnState.disconnected) :
    (ProxyClient.handleDisconnect st).1.pending = [] ∧
    (ProxyClient.handleDisconnect st).1.connectionState = ConnState.disconnected ∧
    ∀ p ∈ st.pending,
      Eff.reject p.1 connectionClosedMessage ∈ (ProxyClient.handleDisconnect st).2 ∧
      (p.2.hasStream = true →
        Eff.streamError p.1 connectionClosedMessage ∈
          (ProxyClient.handleDisconnect st).2) := by
  have hdef : ProxyClient.handleDisconnect st =
      ({ st with connectionState := ConnState.disconnected,
                 messageQueue := [], pending := [] },
       ProxyClient.rejectPendingEffects st.pending) := by
    simp only [ProxyClient.handleDisconnect]
    rw [if_neg h]
  rw [hdef]
  exact ⟨rfl, rfl, fun p hp => mem_rejectPendingEffects st.pending p hp⟩

/-- Witness for C6: a connected state with two pending entries, one with
an attached stream. -/
theorem disconnect_rejects_all_pending_witness :
    (ProxyClient.handleDisconnect
        { nextId := 3, pending := [(4, ⟨true, 0⟩), (9, ⟨false, 0⟩)],
          messageQueue := [], isClosed := false, wsOpen := false,
          connectionState := ConnState.connected, lastHeartbeat := 0 }).1.pending = [] ∧
    Eff.reject 4 connectionClosedMessage ∈
      (ProxyClient.handleDisconnect
        { nextId := 3, pending := [(4, ⟨true, 0⟩), (9, ⟨false, 0⟩)],
          messageQueue := [], isClosed := false, wsOpen := false,
          connectionState := ConnState.connected, lastHeartbeat := 0 }).2 ∧
    Eff.streamError 4 connectionClosedMessage ∈
      (ProxyClient.handleDisconnect
        { nextId := 3, pending := [(4, ⟨true, 0⟩), (9, ⟨false, 0⟩)],
          messageQueue := [], isClosed := false, wsOpen := false,
          connectionState := ConnState.connected, lastHeartbeat := 0 }).2 ∧
    Eff.reject 9 connectionClosedMessage ∈
      (ProxyClient.handleDisconnect
        { nextId := 3, pending := [(4, ⟨true, 0⟩), (9, ⟨false, 0⟩)],
          messageQueue := [], isClosed := false, wsOpen := false,
          connectionState := ConnState.connected, lastHeartbeat := 0 }).2 := by
  have h := disconnect_rejects_all_pending
    { nextId := 3, pending := [(4, ⟨true, 0⟩), (9, ⟨false, 0⟩)],
      messageQueue := [], isClosed := false, wsOpen := false,
      connectionState := ConnState.connected, lastHeartbeat := 0 }
    (by decide)
  refine ⟨h.1, ?_, ?_, ?_⟩
  · exact (h.2.2 (4, ⟨true, 0⟩) (by decide)).1
  · exact (h.2.2 (4, ⟨true, 0⟩) (by decide)).2 rfl
  · exact (h.2.2 (9, ⟨false, 0⟩) (by decide)).1

/-- Claim C8: every `HTTP_RESPONSE` metadata record built by the egress
HTTP engine's `clone` keeps exactly the upstream headers whose
(ASCII-case-insensitive) name is not `transfer-encoding`, and carries
the upstream status, statusText, url and has-body flag. -/
theorem http_response_strips_transfer_encoding (response : JsResponse)
    (k v : String) :
    ((k, v) ∈ (HTTPProxy.clone response).headers ↔
      (k, v) ∈ response.headers ∧ asciiLower k ≠ "transfer-encoding") ∧
    (HTTPProxy.clone response).status = response.status ∧
    (HTTPProxy.clone response).statusText = response.statusText ∧
    (HTTPProxy.clone response).url = response.url ∧
    (HTTPProxy.clone response).body = response.body := by
  refine ⟨?_, rfl, rfl, rfl, rfl⟩
  simp [HTTPProxy.clone, List.mem_filter]

/-- Witness for C8 at a concrete upstream response carrying a
`Transfer-Encoding` header: an ordinary header is kept with all scalar
fields, while the transfer-encoding header is not in the clone. -/
theorem http_response_strips_transfer_encoding_witness :
    (("content-type", "text/html") ∈
      (HTTPProxy.clone
        { headers := [("content-type", "text/html"), ("Transfer-Encoding", "chunked")],
          status := 200, statusText := "OK", url := "http://example.test/",
          body := true }).headers ∧
      (HTTPProxy.clone
        { headers := [("content-type", "text/html"), ("Transfer-Encoding", "chunked")],
          status := 200, statusText := "OK", url := "http://example.test/",
          body := true }).status = 200) ∧
    ¬ ("Transfer-Encoding", "chunked") ∈
      (HTTPProxy.clone
        { headers := [("content-type", "text/html"), ("Transfer-Encoding", "chunked")],
          status := 200, statusText := "OK", url := "http://example.test/",
          body := true }).headers := by
  have h := http_response_strips_transfer_encoding
    { headers := [("content-type", "text/html"), ("Transfer-Encoding", "chunked")],
      status := 200, statusText := "OK", url := "http://example.test/",
      body := true } "content-type" "text/html"
  have h2 := http_response_strips_transfer_encoding
    { headers := [("content-type", "text/html"), ("Transfer-Encoding", "chunked")],
      status := 200, statusText := "OK", url := "http://example.test/",
      body := true } "Transfer-Encoding" "chunked"
  refine ⟨⟨h.1.mpr ⟨by simp, by decide⟩, h.2.1⟩, ?_⟩
  intro hmem
  exact absurd ((h2.1.mp hmem).2) (by decide)

/-- Claim C9: the egress DNS engine's ERROR frames carry a payload whose
first byte is the flag 1 followed by the UTF-8 error text, while the
initiator's ERROR case decodes the whole payload as the message; hence a
DNS failure rejects the awaiter (erroring any attached stream first)
with a message whose first character is the code point U+0001 — not the
bare error text. -/
theorem dns_error_flag_byte :
    (∀ (resourceId : Nat) (messageBytes : List Nat),
      DNSProxy.sendError resourceId messageBytes =
        [Eff.send MessageType.ERROR resourceId (1 :: messageBytes)]) ∧
    (∀ (now : Nat) (st : ClientState) (resourceId : Nat)
        (handler : PendingHandler) (messageBytes : List Nat),
      pendingLookup st.pending resourceId = some handler →
      (ProxyClient.dispatch now st
          ⟨MessageType.ERROR, resourceId, 1 :: messageBytes⟩).2 =
        (if handler.hasStream then
           [Eff.streamError resourceId (1 :: utf8DecodeR messageBytes)]
         else []) ++
        [Eff.reject resourceId (1 :: utf8DecodeR messageBytes)] ∧
      (1 :: utf8DecodeR messageBytes).headD 0 = 1 ∧
      1 :: utf8DecodeR messageBytes ≠ utf8DecodeR messageBytes) := by
  constructor
  · intro resourceId messageBytes
    rfl
  · intro now st resourceId handler messageBytes hlookup
    refine ⟨?_, rfl, fun heq => by simpa using congrArg List.length heq⟩
    simp only [ProxyClient.dispatch, hlookup]
    rw [if_neg (by decide)]
    simp only [MessageType.ERROR, MessageType.TCP_CONNECT_ACK,
      MessageType.DNS_RESPONSE, MessageType.TCP_DATA, MessageType.TCP_CLOSE,
      MessageType.HTTP_RESPONSE, MessageType.HTTP_BODY_CHUNK,
      MessageType.HTTP_BODY_END]
    norm_num
    rw [utf8DecodeR_flag_byte]

/-- Witness for C9: a concrete DNS error message at a state with one
pending entry carrying a stream. -/
theorem dns_error_flag_byte_witness :
    DNSProxy.sendError 3 [100, 110, 115] =
      [Eff.send MessageType.ERROR 3 (1 :: [100, 110, 115])] ∧
    ((ProxyClient.dispatch 0
        { nextId := 4, pending := [(3, ⟨true, 0⟩)], messageQueue := [],
          isClosed := false, wsOpen := true,
          connectionState := ConnState.connected, lastHeartbeat := 0 }
        ⟨MessageType.ERROR, 3, 1 :: [100, 110, 115]⟩).2 =
      [Eff.streamError 3 (1 :: utf8DecodeR [100, 110, 115]),
       Eff.reject 3 (1 :: utf8DecodeR [100, 110, 115])] ∧
    (1 :: utf8DecodeR [100, 110, 115]).headD 0 = 1 ∧
    1 :: utf8DecodeR [100, 110, 115] ≠ utf8DecodeR [100, 110, 115]) :=
  ⟨dns_error_flag_byte.1 3 [100, 110, 115],
   dns_error_flag_byte.2 0
     { nextId := 4, pending := [(3, ⟨true, 0⟩)], messageQueue := [],
       isClosed := false, wsOpen := true,
       connectionState := ConnState.connected, lastHeartbeat := 0 }
     3 ⟨true, 0⟩ [100, 110, 115] rfl⟩

/-- Witness for C4: one frame queued at an empty disconnected queue, and
an emission of `MAX_QUEUE_SIZE + 2` frames retaining exactly the first
`MAX_QUEUE_SIZE`, on both the client and the transport. -/
theorem send_queue_bound_fifo_witness :
    ((ProxyClient.send
        { nextId := 1, pending := [], messageQueue := [], isClosed := false,
          wsOpen := false, connectionState := ConnState.disconnected,
          lastHeartbeat := 0 } 3 1 [5]).1.messageQueue = [] ++ [⟨3, 1, [5]⟩]) ∧
    ((ProxyClient.sendMany
        { nextId := 1, pending := [], messageQueue := [], isClosed := false,
          wsOpen := false, connectionState := ConnState.disconnected,
          lastHeartbeat := 0 }
        ((List.range (MAX_QUEUE_SIZE + 2)).map
          (fun i => ⟨3, i, []⟩))).1.messageQueue =
      ((List.range (MAX_QUEUE_SIZE + 2)).map
        (fun i => ⟨3, i, []⟩)).take MAX_QUEUE_SIZE ∧
     (ProxyClient.sendMany
        { nextId := 1, pending := [], messageQueue := [], isClosed := false,
          wsOpen := false, connectionState := ConnState.disconnected,
          lastHeartbeat := 0 }
        ((List.range (MAX_QUEUE_SIZE + 2)).map
          (fun i => ⟨3, i, []⟩))).1.messageQueue.length = MAX_QUEUE_SIZE) ∧
    ((ProxyTransport.send
        { messageQueue := [], isClosed := false, wsOpen := false,
          connectionState := ConnState.disconnected,
          lastHeartbeat := 0 } 3 1 [5]).1.messageQueue = [] ++ [⟨3, 1, [5]⟩]) ∧
    ((ProxyTransport.sendMany
        { messageQueue := [], isClosed := false, wsOpen := false,
          connectionState := ConnState.disconnected, lastHeartbeat := 0 }
        ((List.range (MAX_QUEUE_SIZE + 2)).map
          (fun i => ⟨3, i, []⟩))).1.messageQueue =
      ((List.range (MAX_QUEUE_SIZE + 2)).map
        (fun i => ⟨3, i, []⟩)).take MAX_QUEUE_SIZE ∧
     (ProxyTransport.sendMany
        { messageQueue := [], isClosed := false, wsOpen := false,
          connectionState := ConnState.disconnected, lastHeartbeat := 0 }
        ((List.range (MAX_QUEUE_SIZE + 2)).map
          (fun i => ⟨3, i, []⟩))).1.messageQueue.length = MAX_QUEUE_SIZE) := by
  refine ⟨?_, ?_, ?_, ?_⟩
  · exact (send_queue_bound_fifo.1
      { nextId := 1, pending := [], messageQueue := [], isClosed := false,
        wsOpen := false, connectionState := ConnState.disconnected,
        lastHeartbeat := 0 } 3 1 [5] rfl rfl).1 (by decide)
  · exact send_queue_bound_fifo.2.1
      { nextId := 1, pending := [], messageQueue := [], isClosed := false,
        wsOpen := false, connectionState := ConnState.disconnected,
        lastHeartbeat := 0 }
      ((List.range (MAX_QUEUE_SIZE + 2)).map (fun i => ⟨3, i, []⟩)) 2
      rfl rfl rfl (by simp)
  · exact (send_queue_bound_fifo.2.2.1
      { messageQueue := [], isClosed := false, wsOpen := false,
        connectionState := ConnState.disconnected, lastHeartbeat := 0 }
      3 1 [5] rfl rfl).1 (by decide)
  · exact send_queue_bound_fifo.2.2.2
      { messageQueue := [], isClosed := false, wsOpen := false,
        connectionState := ConnState.disconnected, lastHeartbeat := 0 }
      ((List.range (MAX_QUEUE_SIZE + 2)).map (fun i => ⟨3, i, []⟩)) 2
      rfl rfl rfl (by simp)
